import Mathlib

/-!
Shallow embedding of the aioutlet cart-service cart mutation engine.

Conventions of the embedding:
* Go `time.Time` values are modelled as `Int` nanosecond timestamps; `time.Duration`
  is an `Int` number of nanoseconds.  Every operation that calls `time.Now()` in Go
  takes an explicit `now : Int` parameter.
* Go `float64` monetary values are modelled as `ℚ`.
* Go methods that mutate the receiver and return an `error` are modelled as pure
  functions returning `Except CartError Cart`; a Go method that returns a non-nil
  error without having mutated the receiver is modelled by the `.error` branch,
  which carries no cart (the caller keeps the old value).
* The Redis keyspace is an association list of entries (key, value, ttl); the Dapr
  state store is an association list of entries (key, cart, ttlInSeconds).
-/

namespace CartService

/-- `models.CartItem` (internal/models/cart.go). -/
structure CartItem where
  productID : String
  productName : String
  sku : String
  price : ℚ
  quantity : Int
  imageURL : String
  category : String
  subtotal : ℚ
  addedAt : Int
deriving DecidableEq, Repr

/-- `models.Cart` (internal/models/cart.go). -/
structure Cart where
  userID : String
  items : List CartItem
  totalPrice : ℚ
  totalItems : Int
  createdAt : Int
  updatedAt : Int
  expiresAt : Int
deriving DecidableEq, Repr

/-- The named error values of internal/models/cart.go, plus the untyped
`fmt.Errorf` failures produced by the service layer (lock contention, product
lookup failure, inactive product, store failure). -/
inductive CartError where
  | cartNotFound
  | itemNotFound
  | productNotFound
  | insufficientStock
  | maxItemsExceeded
  | maxQuantityExceeded
  | invalidQuantity
  | cartExpired
  | concurrentModification
  | productLookupFailed
  | productUnavailable
  | storeFailure
deriving DecidableEq, Repr

/-- `models.AddItemRequest`. -/
structure AddItemRequest where
  productID : String
  quantity : Int
deriving DecidableEq, Repr

/-- `models.UpdateItemRequest`. -/
structure UpdateItemRequest where
  quantity : Int
deriving DecidableEq, Repr

/-- `models.ProductInfo`. -/
structure ProductInfo where
  id : String
  name : String
  sku : String
  price : ℚ
  imageURL : String
  category : String
  isActive : Bool
  stockQty : Int
deriving DecidableEq, Repr

/-- `models.NewCart`: fresh empty cart with `expiresAt = now + ttl`. -/
def NewCart (userID : String) (ttl : Int) (now : Int) : Cart :=
  { userID := userID
    items := []
    totalPrice := 0
    totalItems := 0
    createdAt := now
    updatedAt := now
    expiresAt := now + ttl }

/-- `Cart.UpdateTotals`: recompute `totalPrice` and `totalItems` from the item list. -/
def Cart.UpdateTotals (c : Cart) : Cart :=
  { c with
    totalPrice := (c.items.map CartItem.subtotal).sum
    totalItems := (c.items.map CartItem.quantity).sum }

/-- `Cart.IsExpired`: `time.Now().UTC().After(c.ExpiresAt)`, i.e. `now > expiresAt` (strict). -/
def Cart.IsExpired (c : Cart) (now : Int) : Bool :=
  decide (c.expiresAt < now)

/-- `Cart.IsEmpty`. -/
def Cart.IsEmpty (c : Cart) : Bool :=
  decide (c.items.length = 0)

/-- `Cart.HasItem`: linear scan for a matching productID. -/
def Cart.HasItem (c : Cart) (productID : String) : Bool :=
  c.items.any fun x => decide (x.productID = productID)

/-- `Cart.GetItem`: first item with the given productID, or `ErrItemNotFound`. -/
def Cart.GetItem (c : Cart) (productID : String) : Except CartError CartItem :=
  match c.items.find? fun x => decide (x.productID = productID) with
  | some x => .ok x
  | none => .error .itemNotFound

/-- The `for i, existingItem := range c.Items` loop of `Cart.AddItem`: merge the
incoming item into the first row with the same productID.  `none` means no row
matched (the loop fell through). -/
def mergeItems (item : CartItem) (maxQuantity : Int) :
    List CartItem → Option (Except CartError (List CartItem))
  | [] => none
  | x :: xs =>
    if x.productID = item.productID then
      let newQty := x.quantity + item.quantity
      if newQty > maxQuantity then
        some (.error .maxQuantityExceeded)
      else
        some (.ok ({ x with quantity := newQty, subtotal := (newQty : ℚ) * x.price } :: xs))
    else
      match mergeItems item maxQuantity xs with
      | none => none
      | some (.error e) => some (.error e)
      | some (.ok ys) => some (.ok (x :: ys))

/-- `Cart.AddItem` (internal/models/cart.go lines 109-148). -/
def Cart.AddItem (c : Cart) (item : CartItem) (maxItems maxQuantity : Int) (now : Int) :
    Except CartError Cart :=
  if c.expiresAt < now then
    .error .cartExpired
  else
    match mergeItems item maxQuantity c.items with
    | some (.error e) => .error e
    | some (.ok items2) =>
      .ok { (Cart.UpdateTotals { c with items := items2 }) with updatedAt := now }
    | none =>
      if (c.items.length : Int) ≥ maxItems then
        .error .maxItemsExceeded
      else if item.quantity > maxQuantity then
        .error .maxQuantityExceeded
      else
        let item2 := { item with subtotal := (item.quantity : ℚ) * item.price, addedAt := now }
        .ok { (Cart.UpdateTotals { c with items := c.items ++ [item2] }) with updatedAt := now }

/-- The item-scan loop of `Cart.UpdateItemQuantity`: update (or, for quantity 0,
remove) the first row with the given productID; `none` means no row matched. -/
def updateItems (productID : String) (quantity : Int) :
    List CartItem → Option (List CartItem)
  | [] => none
  | x :: xs =>
    if x.productID = productID then
      if quantity = 0 then
        some xs
      else
        some ({ x with quantity := quantity, subtotal := (quantity : ℚ) * x.price } :: xs)
    else
      match updateItems productID quantity xs with
      | none => none
      | some ys => some (x :: ys)

/-- `Cart.UpdateItemQuantity` (internal/models/cart.go lines 151-181). -/
def Cart.UpdateItemQuantity (c : Cart) (productID : String) (quantity maxQuantity : Int)
    (now : Int) : Except CartError Cart :=
  if c.expiresAt < now then
    .error .cartExpired
  else if quantity < 0 then
    .error .invalidQuantity
  else if quantity > maxQuantity then
    .error .maxQuantityExceeded
  else
    match updateItems productID quantity c.items with
    | some items2 =>
      .ok { (Cart.UpdateTotals { c with items := items2 }) with updatedAt := now }
    | none => .error .itemNotFound

/-- The item-scan loop of `Cart.RemoveItem`: drop the first row with the given
productID; `none` means no row matched. -/
def removeItems (productID : String) : List CartItem → Option (List CartItem)
  | [] => none
  | x :: xs =>
    if x.productID = productID then
      some xs
    else
      match removeItems productID xs with
      | none => none
      | some ys => some (x :: ys)

/-- `Cart.RemoveItem` (internal/models/cart.go lines 184-200). -/
def Cart.RemoveItem (c : Cart) (productID : String) (now : Int) : Except CartError Cart :=
  if c.expiresAt < now then
    .error .cartExpired
  else
    match removeItems productID c.items with
    | some items2 =>
      .ok { (Cart.UpdateTotals { c with items := items2 }) with updatedAt := now }
    | none => .error .itemNotFound

/-- `Cart.Clear`: unconditionally empty the cart (no expiry check). -/
def Cart.Clear (c : Cart) (now : Int) : Cart :=
  { c with items := [], totalPrice := 0, totalItems := 0, updatedAt := now }

/-- `Cart.ExtendExpiry`: `expiresAt = now + ttl` (no expiry precondition). -/
def Cart.ExtendExpiry (c : Cart) (ttl : Int) (now : Int) : Cart :=
  { c with expiresAt := now + ttl, updatedAt := now }

/-! ### The Redis-backed repository (internal/repository, Redis variant) -/

/-- One nanosecond-denominated minute (`time.Minute`). -/
def minuteNs : Int := 60000000000

/-- A value stored under a Redis key: either a serialized cart (the JSON
round-trip is modelled as the identity) or a plain string (the lock marker). -/
inductive RedisVal where
  | cartVal (c : Cart)
  | strVal (s : String)
deriving DecidableEq, Repr

/-- One Redis key with its value and the TTL (in nanoseconds) it was last set with. -/
structure RedisEntry where
  key : String
  val : RedisVal
  ttl : Int
deriving DecidableEq, Repr

/-- The Redis keyspace. -/
abbrev RedisState := List RedisEntry

/-- `GET key`. -/
def redisLookup (st : RedisState) (k : String) : Option RedisVal :=
  match st.find? fun e => decide (e.key = k) with
  | some e => some e.val
  | none => none

/-- `SET key value EX ttl` (unconditional overwrite). -/
def redisSet (st : RedisState) (k : String) (v : RedisVal) (ttl : Int) : RedisState :=
  ⟨k, v, ttl⟩ :: st.filter fun e => decide (e.key ≠ k)

/-- `SETNX key value EX ttl`: set only if the key is absent; returns whether it was set. -/
def redisSetNX (st : RedisState) (k : String) (v : RedisVal) (ttl : Int) :
    Bool × RedisState :=
  match redisLookup st k with
  | some _ => (false, st)
  | none => (true, ⟨k, v, ttl⟩ :: st)

/-- `DEL key`. -/
def redisDel (st : RedisState) (k : String) : RedisState :=
  st.filter fun e => decide (e.key ≠ k)

/-- `cartRepository.getCartKey`: `cartKeyPrefix + userID` with `cartKeyPrefix = "cart:"`. -/
def getCartKey (userID : String) : String := "cart:" ++ userID

/-- `cartRepository.getLockKey`: `cartLockPrefix + userID` with `cartLockPrefix = "cart_lock:"`. -/
def getLockKey (userID : String) : String := "cart_lock:" ++ userID

/-- `cartRepository.AcquireLock`: `SetNX(lockKey, "locked", ttl)`. -/
def acquireLock (st : RedisState) (userID : String) (ttl : Int) : Bool × RedisState :=
  redisSetNX st (getLockKey userID) (.strVal "locked") ttl

/-- `cartRepository.ReleaseLock`: `Del(lockKey)`. -/
def releaseLock (st : RedisState) (userID : String) : RedisState :=
  redisDel st (getLockKey userID)

/-- `cartRepository.GetCart`: `GET`, not-found on `redis.Nil`, unmarshal, and —
if the deserialized cart is expired — delete it and return `ErrCartExpired`. -/
def repoGetCart (st : RedisState) (now : Int) (userID : String) :
    Except CartError Cart × RedisState :=
  match redisLookup st (getCartKey userID) with
  | none => (.error .cartNotFound, st)
  | some (.strVal _) => (.error .storeFailure, st)
  | some (.cartVal c) =>
    if c.IsExpired now then
      (.error .cartExpired, redisDel st (getCartKey userID))
    else
      (.ok c, st)

/-- `cartRepository.SaveCart`: write under the cart key with
`ttl := time.Until(cart.ExpiresAt); if ttl <= 0 { ttl = time.Minute }`. -/
def repoSaveCart (st : RedisState) (now : Int) (cart : Cart) : RedisState :=
  let ttl := cart.expiresAt - now
  let ttl2 := if ttl ≤ 0 then minuteNs else ttl
  redisSet st (getCartKey cart.userID) (.cartVal cart) ttl2

/-- `cartRepository.DeleteCart`. -/
def repoDeleteCart (st : RedisState) (userID : String) : RedisState :=
  redisDel st (getCartKey userID)

/-! ### The Dapr-backed repository (internal/repository, Dapr variant) -/

/-- One Dapr state-store entry: key, stored cart, and the `ttlInSeconds` metadata. -/
structure DaprEntry where
  key : String
  cart : Cart
  ttlSeconds : Int
deriving DecidableEq, Repr

/-- The Dapr state store. -/
abbrev DaprState := List DaprEntry

/-- `DaprCartRepository.AcquireLock`: a permissive no-op — always returns `true`
and writes nothing ("we don't need explicit locks"). -/
def daprAcquireLock (st : DaprState) (_userID : String) (_ttl : Int) : Bool × DaprState :=
  (true, st)

/-- `DaprCartRepository.SaveCart`: `ttl := int(time.Until(cart.ExpiresAt).Seconds());
if ttl <= 0 { ttl = 60 }`, then save with `ttlInSeconds` metadata.  Go's
float64-to-int conversion truncates toward zero, as does `Int.div`. -/
def daprSaveCart (st : DaprState) (now : Int) (cart : Cart) : DaprState :=
  let ttl := Int.tdiv (cart.expiresAt - now) 1000000000
  let ttl2 := if ttl ≤ 0 then 60 else ttl
  ⟨getCartKey cart.userID, cart, ttl2⟩ ::
    st.filter fun e => decide (e.key ≠ getCartKey cart.userID)

/-! ### The orchestrator (internal/services/cart_service.go) -/

/-- `cartService.GetCart`: load via the repository; on `ErrCartNotFound` create a
fresh cart with the default TTL and persist it; every other error propagates. -/
def serviceGetCart (st : RedisState) (now : Int) (userID : String) (dttl : Int) :
    Except CartError Cart × RedisState :=
  match repoGetCart st now userID with
  | (.ok c, st1) => (.ok c, st1)
  | (.error .cartNotFound, st1) =>
    let c := NewCart userID dttl now
    (.ok c, repoSaveCart st1 now c)
  | (.error e, st1) => (.error e, st1)

/-- `cartService.AddItem`.  The two collaborator calls are modelled by their
outcomes: `productRes` is the result of `productClient.GetProduct` and `invRes`
the result of `inventoryClient.CheckAvailability`. -/
def serviceAddItem (st : RedisState) (now : Int) (userID : String) (req : AddItemRequest)
    (productRes : Except Unit ProductInfo) (invRes : Except Unit Bool)
    (maxItems maxQuantity dttl lease : Int) : Except CartError Cart × RedisState :=
  let (lockOk, st1) := acquireLock st userID lease
  if lockOk = false then
    (.error .concurrentModification, st1)
  else
    match productRes with
    | .error _ => (.error .productLookupFailed, releaseLock st1 userID)
    | .ok pinfo =>
      if pinfo.isActive = false then
        (.error .productUnavailable, releaseLock st1 userID)
      else
        let proceed := match invRes with
          | .error _ => true
          | .ok avail => avail
        if proceed = false then
          (.error .insufficientStock, releaseLock st1 userID)
        else
          match serviceGetCart st1 now userID dttl with
          | (.error e, st2) => (.error e, releaseLock st2 userID)
          | (.ok cart, st2) =>
            let cartItem : CartItem :=
              { productID := pinfo.id
                productName := pinfo.name
                sku := pinfo.sku
                price := pinfo.price
                quantity := req.quantity
                imageURL := pinfo.imageURL
                category := pinfo.category
                subtotal := 0
                addedAt := now }
            match cart.AddItem cartItem maxItems maxQuantity now with
            | .error e => (.error e, releaseLock st2 userID)
            | .ok cart2 => (.ok cart2, releaseLock (repoSaveCart st2 now cart2) userID)

/-- `cartService.UpdateItem`.  The inventory check runs only when the requested
quantity is positive, the item is present, and the quantity is increasing. -/
def serviceUpdateItem (st : RedisState) (now : Int) (userID productID : String)
    (req : UpdateItemRequest) (invRes : Except Unit Bool)
    (maxQuantity lease : Int) : Except CartError Cart × RedisState :=
  let (lockOk, st1) := acquireLock st userID lease
  if lockOk = false then
    (.error .concurrentModification, st1)
  else
    match repoGetCart st1 now userID with
    | (.error e, st2) => (.error e, releaseLock st2 userID)
    | (.ok cart, st2) =>
      let gate : Option CartError :=
        if req.quantity > 0 then
          match cart.GetItem productID with
          | .ok cur =>
            if req.quantity > cur.quantity then
              match invRes with
              | .error _ => none
              | .ok true => none
              | .ok false => some .insufficientStock
            else none
          | .error _ => none
        else none
      match gate with
      | some e => (.error e, releaseLock st2 userID)
      | none =>
        match cart.UpdateItemQuantity productID req.quantity maxQuantity now with
        | .error e => (.error e, releaseLock st2 userID)
        | .ok cart2 => (.ok cart2, releaseLock (repoSaveCart st2 now cart2) userID)

/-- One iteration of `cartService.TransferCart`'s merge loop: attempt
`AddItem` into the accumulated target cart; on failure log, skip, continue. -/
def transferStep (now maxItems maxQuantity : Int) (acc : Cart) (item : CartItem) : Cart :=
  match acc.AddItem item maxItems maxQuantity now with
  | .ok c => c
  | .error _ => acc

/-- `cartService.TransferCart`: lock source then target, load the source cart
(absent → return the target via get-or-create), get-or-create the target,
best-effort merge every source item, persist the target, delete the source,
release both locks on every exit path. -/
def transferCart (st : RedisState) (now : Int) (fromUserID toUserID : String)
    (maxItems maxQuantity dttl lease : Int) : Except CartError Cart × RedisState :=
  let (fromLockOk, st1) := acquireLock st fromUserID lease
  if fromLockOk = false then
    (.error .concurrentModification, st1)
  else
    let (toLockOk, st2) := acquireLock st1 toUserID lease
    if toLockOk = false then
      (.error .concurrentModification, releaseLock st2 fromUserID)
    else
      match repoGetCart st2 now fromUserID with
      | (.error .cartNotFound, st3) =>
        let (res, st4) := serviceGetCart st3 now toUserID dttl
        (res, releaseLock (releaseLock st4 toUserID) fromUserID)
      | (.error e, st3) =>
        (.error e, releaseLock (releaseLock st3 toUserID) fromUserID)
      | (.ok fromCart, st3) =>
        match serviceGetCart st3 now toUserID dttl with
        | (.error e, st4) =>
          (.error e, releaseLock (releaseLock st4 toUserID) fromUserID)
        | (.ok toCart, st4) =>
          let toCart2 := fromCart.items.foldl (transferStep now maxItems maxQuantity) toCart
          let st5 := repoSaveCart st4 now toCart2
          let st6 := repoDeleteCart st5 fromUserID
          (.ok toCart2, releaseLock (releaseLock st6 toUserID) fromUserID)

/-! ### Sequences of Model operations -/

/-- One Model operation, with the configuration limits it is invoked with. -/
inductive CartOp where
  | add (item : CartItem) (maxItems maxQuantity : Int)
  | update (productID : String) (quantity maxQuantity : Int)
  | remove (productID : String)
  | clear
  | extend (ttl : Int)
deriving DecidableEq, Repr

/-- Apply one Model operation at time `now`.  `Clear` and `ExtendExpiry` return
no error in Go, so they always succeed. -/
def applyOp (now : Int) (c : Cart) : CartOp → Except CartError Cart
  | .add item mi mq => c.AddItem item mi mq now
  | .update p q mq => c.UpdateItemQuantity p q mq now
  | .remove p => c.RemoveItem p now
  | .clear => .ok (c.Clear now)
  | .extend ttl => .ok (c.ExtendExpiry ttl now)

/-- Run a sequence of timestamped Model operations, returning the list of carts
after each operation; `none` as soon as any operation fails. -/
def runOps (c : Cart) : List (Int × CartOp) → Option (List Cart)
  | [] => some []
  | (now, op) :: rest =>
    match applyOp now c op with
    | .error _ => none
    | .ok c2 =>
      match runOps c2 rest with
      | none => none
      | some cs => some (c2 :: cs)

/-- The derived-totals invariant of the data model: `totalPrice` is the sum of
the item subtotals and `totalItems` the sum of the item quantities. -/
def TotalsInv (c : Cart) : Prop :=
  c.totalPrice = (c.items.map CartItem.subtotal).sum ∧
  c.totalItems = (c.items.map CartItem.quantity).sum

instance (c : Cart) : Decidable (TotalsInv c) :=
  inferInstanceAs (Decidable (_ ∧ _))

/-- Every item quantity of the cart lies in `[1, mq]`. -/
def quantitiesInRange (c : Cart) (mq : Int) : Bool :=
  c.items.all fun x => decide (1 ≤ x.quantity) && decide (x.quantity ≤ mq)

/-- The cart a caller holds after invoking `UpdateItemQuantity` on it: the Go
method mutates its receiver only on success, so on failure the old cart value
is kept. -/
def cartAfterUpdate (c : Cart) (p : String) (q mq now : Int) : Cart :=
  match c.UpdateItemQuantity p q mq now with
  | .ok c2 => c2
  | .error _ => c

/-- Remaining store-native TTL recorded for a key (the Redis variant). -/
def redisGetTTL (st : RedisState) (k : String) : Option Int :=
  match st.find? fun e => decide (e.key = k) with
  | some e => some e.ttl
  | none => none

/-- Remaining store-native TTL recorded for a key (the Dapr variant,
`ttlInSeconds`). -/
def daprGetTTL (st : DaprState) (k : String) : Option Int :=
  match st.find? fun e => decide (e.key = k) with
  | some e => some e.ttlSeconds
  | none => none

/-- The TTL claimed by the spec: `max(time until cart.expiresAt, 1 minute)`.
Modelled from the spec for comparison with the code's computation. -/
def specSaveTTL (expiresAt now : Int) : Int :=
  max (expiresAt - now) minuteNs

/-! ### Key-string facts -/

theorem getCartKey_inj {a b : String} (h : getCartKey a = getCartKey b) : a = b := by
  have h2 : ("cart:" ++ a).data = ("cart:" ++ b).data := congrArg String.data h
  rw [String.data_append, String.data_append] at h2
  have h3 : a.data = b.data := by
    simpa using h2
  cases a; cases b; exact congrArg String.mk (by simpa using h3)

theorem getCartKey_ne_getLockKey (a b : String) : getCartKey a ≠ getLockKey b := by
  intro h
  have h2 : ("cart:" ++ a).data = ("cart_lock:" ++ b).data := congrArg String.data h
  rw [String.data_append, String.data_append] at h2
  have ha : ("cart:" : String).data = ['c', 'a', 'r', 't', ':'] := rfl
  have hb : ("cart_lock:" : String).data =
      ['c', 'a', 'r', 't', '_', 'l', 'o', 'c', 'k', ':'] := rfl
  rw [ha, hb] at h2
  simp at h2

/-! ### Shape lemmas for the Model operations -/

theorem totalsInv_updateTotals (c : Cart) : TotalsInv (Cart.UpdateTotals c) := by
  constructor <;> rfl

theorem addItem_ok_shape {c : Cart} {item : CartItem} {mi mq now : Int} {c' : Cart}
    (h : c.AddItem item mi mq now = .ok c') :
    ∃ its, c' = { (Cart.UpdateTotals { c with items := its }) with updatedAt := now } := by
  unfold Cart.AddItem at h
  split at h
  · exact absurd h (by simp)
  · split at h
    · exact absurd h (by simp)
    · exact ⟨_, (Except.ok.injEq _ _ ▸ h).symm⟩
    · split at h
      · exact absurd h (by simp)
      · split at h
        · exact absurd h (by simp)
        · exact ⟨_, (Except.ok.injEq _ _ ▸ h).symm⟩

theorem updateItemQuantity_ok_shape {c : Cart} {p : String} {q mq now : Int} {c' : Cart}
    (h : c.UpdateItemQuantity p q mq now = .ok c') :
    ∃ its, c' = { (Cart.UpdateTotals { c with items := its }) with updatedAt := now } := by
  unfold Cart.UpdateItemQuantity at h
  split at h
  · exact absurd h (by simp)
  · split at h
    · exact absurd h (by simp)
    · split at h
      · exact absurd h (by simp)
      · split at h
        · exact ⟨_, (Except.ok.injEq _ _ ▸ h).symm⟩
        · exact absurd h (by simp)

theorem removeItem_ok_shape {c : Cart} {p : String} {now : Int} {c' : Cart}
    (h : c.RemoveItem p now = .ok c') :
    ∃ its, c' = { (Cart.UpdateTotals { c with items := its }) with updatedAt := now } := by
  unfold Cart.RemoveItem at h
  split at h
  · exact absurd h (by simp)
  · split at h
    · exact ⟨_, (Except.ok.injEq _ _ ▸ h).symm⟩
    · exact absurd h (by simp)

theorem totalsInv_of_shape {c : Cart} {its : List CartItem} {now : Int} :
    TotalsInv { (Cart.UpdateTotals { c with items := its }) with updatedAt := now } := by
  constructor <;> rfl

theorem applyOp_preserves_totalsInv {now : Int} {c : Cart} {op : CartOp} {c' : Cart}
    (hinv : TotalsInv c) (h : applyOp now c op = .ok c') : TotalsInv c' := by
  cases op with
  | add item mi mq =>
    obtain ⟨its, rfl⟩ := addItem_ok_shape (by simpa [applyOp] using h)
    exact totalsInv_of_shape
  | update p q mq =>
    obtain ⟨its, rfl⟩ := updateItemQuantity_ok_shape (by simpa [applyOp] using h)
    exact totalsInv_of_shape
  | remove p =>
    obtain ⟨its, rfl⟩ := removeItem_ok_shape (by simpa [applyOp] using h)
    exact totalsInv_of_shape
  | clear =>
    simp only [applyOp, Except.ok.injEq] at h
    subst h
    constructor <;> rfl
  | extend ttl =>
    simp only [applyOp, Except.ok.injEq] at h
    subst h
    exact hinv

/-- Claim C1: for every cart satisfying the derived-totals invariant (in
particular every `NewCart`) and every sequence of Model operations
(`AddItem`, `UpdateItemQuantity`, `RemoveItem`, `Clear`, `ExtendExpiry`) in
which each operation returns success, after each operation the cart's
`totalPrice` equals the sum of its items' subtotals and its `totalItems`
equals the sum of its items' quantities. -/
theorem claim_C1_totals_invariant (u : String) (ttl now : Int)
    (c : Cart) (ops : List (Int × CartOp))
    (cs : List Cart) (hinv : TotalsInv c) (hrun : runOps c ops = some cs) :
    TotalsInv (NewCart u ttl now) ∧ ∀ c' ∈ cs, TotalsInv c' := by
  refine ⟨⟨rfl, rfl⟩, ?_⟩
  induction ops generalizing c cs with
  | nil =>
    obtain rfl : cs = [] := by simpa [runOps] using hrun.symm
    intro c' hc'
    simp at hc'
  | cons hd tl ih =>
    obtain ⟨nowHd, op⟩ := hd
    simp only [runOps] at hrun
    split at hrun
    · exact absurd hrun (by simp)
    · rename_i c2 hc2
      split at hrun
      · exact absurd hrun (by simp)
      · rename_i cs2 hcs2
        obtain rfl : c2 :: cs2 = cs := by simpa using hrun
        have hinv2 : TotalsInv c2 := applyOp_preserves_totalsInv hinv hc2
        intro c' hc'
        rcases List.mem_cons.mp hc' with rfl | hmem
        · exact hinv2
        · exact ih c2 cs2 hinv2 hcs2 c' hmem

/-- Witness for claim C1 at a concrete cart and operation sequence. -/
theorem claim_C1_totals_invariant_witness :
    TotalsInv (NewCart "x" 7 3) ∧
    ∀ c' ∈ [Cart.ExtendExpiry (NewCart "u1" 100 0) 50 1], TotalsInv c' :=
  claim_C1_totals_invariant "x" 7 3
    (NewCart "u1" 100 0) [(1, .extend 50)]
    [Cart.ExtendExpiry (NewCart "u1" 100 0) 50 1]
    (by constructor <;> rfl) (by rfl)

/-- Claim C2: on a cart whose `IsExpired` is true (now strictly after
`expiresAt`), `AddItem`, `UpdateItemQuantity` and `RemoveItem` each fail with
`CartExpired` (leaving the cart unchanged — in this embedding a failing
operation returns no cart, mirroring the Go methods, which return before any
mutation), while `Clear` still succeeds (empties `items`, zeroes both totals)
and `ExtendExpiry` still succeeds (sets `expiresAt = now + ttl`). -/
theorem claim_C2_expiry_gate (c : Cart) (now : Int) (item : CartItem)
    (p : String) (q mi mq ttl : Int) (hexp : c.IsExpired now = true) :
    c.AddItem item mi mq now = .error .cartExpired ∧
    c.UpdateItemQuantity p q mq now = .error .cartExpired ∧
    c.RemoveItem p now = .error .cartExpired ∧
    (c.Clear now).items = [] ∧
    (c.Clear now).totalPrice = 0 ∧
    (c.Clear now).totalItems = 0 ∧
    (c.ExtendExpiry ttl now).expiresAt = now + ttl ∧
    (c.ExtendExpiry ttl now).items = c.items := by
  have h : c.expiresAt < now := by simpa [Cart.IsExpired] using hexp
  refine ⟨?_, ?_, ?_, rfl, rfl, rfl, rfl, rfl⟩ <;>
    simp [Cart.AddItem, Cart.UpdateItemQuantity, Cart.RemoveItem, h]

/-- Witness for claim C2 on a concrete expired cart. -/
theorem claim_C2_expiry_gate_witness :
    (NewCart "u1" 5 0).AddItem
        { productID := "p1", productName := "n", sku := "s", price := 2,
          quantity := 1, imageURL := "", category := "", subtotal := 0,
          addedAt := 0 } 10 5 9 = .error .cartExpired ∧
    (NewCart "u1" 5 0).UpdateItemQuantity "p1" 1 5 9 = .error .cartExpired ∧
    (NewCart "u1" 5 0).RemoveItem "p1" 9 = .error .cartExpired ∧
    ((NewCart "u1" 5 0).Clear 9).items = [] ∧
    ((NewCart "u1" 5 0).Clear 9).totalPrice = 0 ∧
    ((NewCart "u1" 5 0).Clear 9).totalItems = 0 ∧
    ((NewCart "u1" 5 0).ExtendExpiry 50 9).expiresAt = 9 + 50 ∧
    ((NewCart "u1" 5 0).ExtendExpiry 50 9).items = (NewCart "u1" 5 0).items :=
  claim_C2_expiry_gate (NewCart "u1" 5 0) 9
    { productID := "p1", productName := "n", sku := "s", price := 2,
      quantity := 1, imageURL := "", category := "", subtotal := 0, addedAt := 0 }
    "p1" 1 10 5 50 (by decide)

/-! ### Quantity bounds (claim C3) -/


theorem quantitiesInRange_iff {c : Cart} {mq : Int} :
    quantitiesInRange c mq = true ↔ ∀ x ∈ c.items, 1 ≤ x.quantity ∧ x.quantity ≤ mq := by
  simp [quantitiesInRange]

theorem mergeItems_ok_range {item : CartItem} {mq : Int} :
    ∀ {xs ys : List CartItem}, mergeItems item mq xs = some (.ok ys) →
    (∀ x ∈ xs, 1 ≤ x.quantity ∧ x.quantity ≤ mq) → 1 ≤ item.quantity →
    ∀ y ∈ ys, 1 ≤ y.quantity ∧ y.quantity ≤ mq := by
  intro xs
  induction xs with
  | nil => intro ys h; exact absurd h (by simp [mergeItems])
  | cons x xs ih =>
    intro ys h hxs hit
    simp only [mergeItems] at h
    split at h
    · split at h
      · exact absurd h (by simp)
      · rename_i hle
        obtain rfl : _ :: xs = ys := by simpa using h
        intro y hy
        rcases List.mem_cons.mp hy with rfl | hmem
        · have hx1 := (hxs x (by simp)).1
          exact ⟨by show (1 : Int) ≤ x.quantity + item.quantity; omega,
                 by show x.quantity + item.quantity ≤ mq; omega⟩
        · exact hxs y (List.mem_cons_of_mem _ hmem)
    · split at h
      · exact absurd h (by simp)
      · exact absurd h (by simp)
      · rename_i ys' hys'
        obtain rfl : x :: ys' = ys := by simpa using h
        intro y hy
        rcases List.mem_cons.mp hy with rfl | hmem
        · exact hxs y (by simp)
        · exact ih hys' (fun z hz => hxs z (List.mem_cons_of_mem _ hz)) hit y hmem

theorem updateItems_ok_range {p : String} {q mq : Int} :
    ∀ {xs ys : List CartItem}, updateItems p q xs = some ys →
    0 ≤ q → q ≤ mq →
    (∀ x ∈ xs, 1 ≤ x.quantity ∧ x.quantity ≤ mq) →
    ∀ y ∈ ys, 1 ≤ y.quantity ∧ y.quantity ≤ mq := by
  intro xs
  induction xs with
  | nil => intro ys h; exact absurd h (by simp [updateItems])
  | cons x xs ih =>
    intro ys h h0 hmq hxs
    simp only [updateItems] at h
    split at h
    · split at h
      · obtain rfl : xs = ys := by simpa using h
        exact fun y hy => hxs y (List.mem_cons_of_mem _ hy)
      · rename_i hq0
        obtain rfl : _ :: xs = ys := by simpa using h
        intro y hy
        rcases List.mem_cons.mp hy with rfl | hmem
        · exact ⟨by simp only []; omega, by simp only []; omega⟩
        · exact hxs y (List.mem_cons_of_mem _ hmem)
    · split at h
      · exact absurd h (by simp)
      · rename_i ys' hys'
        obtain rfl : x :: ys' = ys := by simpa using h
        intro y hy
        rcases List.mem_cons.mp hy with rfl | hmem
        · exact hxs y (by simp)
        · exact ih hys' h0 hmq (fun z hz => hxs z (List.mem_cons_of_mem _ hz)) y hmem

theorem removeItems_ok_subset {p : String} :
    ∀ {xs ys : List CartItem}, removeItems p xs = some ys → ∀ y ∈ ys, y ∈ xs := by
  intro xs
  induction xs with
  | nil => intro ys h; exact absurd h (by simp [removeItems])
  | cons x xs ih =>
    intro ys h
    simp only [removeItems] at h
    split at h
    · obtain rfl : xs = ys := by simpa using h
      exact fun y hy => List.mem_cons_of_mem _ hy
    · split at h
      · exact absurd h (by simp)
      · rename_i ys' hys'
        obtain rfl : x :: ys' = ys := by simpa using h
        intro y hy
        rcases List.mem_cons.mp hy with rfl | hmem
        · simp
        · exact List.mem_cons_of_mem _ (ih hys' y hmem)

/-- Counterexample to claim C3: `Cart.AddItem` never checks the lower quantity
bound, so inserting an item with quantity 0 into a fresh cart (all existing
quantities vacuously in `[1, 5]`) succeeds and yields a cart with an item whose
quantity 0 lies outside `[1, 5]`. -/
theorem claim_C3_counterexample :
    quantitiesInRange (NewCart "u1" 100 0) 5 = true ∧
    Except.map (fun c' => quantitiesInRange c' 5)
      ((NewCart "u1" 100 0).AddItem
        { productID := "p1", productName := "n", sku := "s", price := 2,
          quantity := 0, imageURL := "", category := "", subtotal := 0,
          addedAt := 0 } 10 5 1) = .ok false := by
  constructor <;> rfl

/-- Claim C3 as amended: for every cart whose item quantities all lie in
`[1, maxQuantity]`, every successful Model operation again yields quantities in
`[1, maxQuantity]`, provided the item passed to `AddItem` has quantity ≥ 1:
the upper bound is enforced by `AddItem` both on insert of a new item and on
merge into an existing item, and by `UpdateItemQuantity`, but the lower bound
is not checked by `AddItem` itself (it is enforced upstream by the HTTP request
binding `min=1`). -/
theorem claim_C3_amended (c : Cart) (mq now : Int)
    (hc : quantitiesInRange c mq = true) :
    (∀ (item : CartItem) (mi : Int) (c' : Cart), 1 ≤ item.quantity →
      c.AddItem item mi mq now = .ok c' → quantitiesInRange c' mq = true) ∧
    (∀ (p : String) (q : Int) (c' : Cart),
      c.UpdateItemQuantity p q mq now = .ok c' → quantitiesInRange c' mq = true) ∧
    (∀ (p : String) (c' : Cart),
      c.RemoveItem p now = .ok c' → quantitiesInRange c' mq = true) ∧
    quantitiesInRange (c.Clear now) mq = true ∧
    (∀ ttl : Int, quantitiesInRange (c.ExtendExpiry ttl now) mq = true) := by
  have hc' := quantitiesInRange_iff.mp hc
  refine ⟨?_, ?_, ?_, by simp [quantitiesInRange, Cart.Clear], fun ttl => ?_⟩
  · intro item mi c' hq1 h
    unfold Cart.AddItem at h
    split at h
    · exact absurd h (by simp)
    · split at h
      · exact absurd h (by simp)
      · rename_i its hits
        obtain rfl : _ = c' := by simpa using h
        exact quantitiesInRange_iff.mpr (mergeItems_ok_range hits hc' hq1)
      · rename_i hnone
        split at h
        · exact absurd h (by simp)
        · split at h
          · exact absurd h (by simp)
          · rename_i hlen hqty
            obtain rfl : _ = c' := by simpa using h
            refine quantitiesInRange_iff.mpr ?_
            intro y hy
            rcases List.mem_append.mp hy with hmem | hmem
            · exact hc' y hmem
            · obtain rfl : y = _ := by simpa using hmem
              exact ⟨hq1, by show item.quantity ≤ mq; omega⟩
  · intro p q c' h
    unfold Cart.UpdateItemQuantity at h
    split at h
    · exact absurd h (by simp)
    · split at h
      · exact absurd h (by simp)
      · split at h
        · exact absurd h (by simp)
        · rename_i hneg hgt
          split at h
          · rename_i its hits
            obtain rfl : _ = c' := by simpa using h
            exact quantitiesInRange_iff.mpr
              (updateItems_ok_range hits (by omega) (by omega) hc')
          · exact absurd h (by simp)
  · intro p c' h
    unfold Cart.RemoveItem at h
    split at h
    · exact absurd h (by simp)
    · split at h
      · rename_i its hits
        obtain rfl : _ = c' := by simpa using h
        exact quantitiesInRange_iff.mpr
          (fun y hy => hc' y (removeItems_ok_subset hits y hy))
      · exact absurd h (by simp)
  · exact quantitiesInRange_iff.mpr (fun y hy => hc' y hy)

/-- Witness for the amended claim C3 on a concrete in-range cart. -/
theorem claim_C3_amended_witness :
    (∀ (item : CartItem) (mi : Int) (c' : Cart), 1 ≤ item.quantity →
      (NewCart "u1" 100 0).AddItem item mi 5 1 = .ok c' →
      quantitiesInRange c' 5 = true) ∧
    (∀ (p : String) (q : Int) (c' : Cart),
      (NewCart "u1" 100 0).UpdateItemQuantity p q 5 1 = .ok c' →
      quantitiesInRange c' 5 = true) ∧
    (∀ (p : String) (c' : Cart),
      (NewCart "u1" 100 0).RemoveItem p 1 = .ok c' → quantitiesInRange c' 5 = true) ∧
    quantitiesInRange ((NewCart "u1" 100 0).Clear 1) 5 = true ∧
    (∀ ttl : Int, quantitiesInRange ((NewCart "u1" 100 0).ExtendExpiry ttl 1) 5 = true) :=
  claim_C3_amended (NewCart "u1" 100 0) 5 1 (by decide)

/-! ### Zero-quantity update (claim C9) -/


theorem updateItems_none_not_mem {p : String} {q : Int} :
    ∀ {xs : List CartItem}, updateItems p q xs = none →
    ∀ x ∈ xs, x.productID ≠ p := by
  intro xs
  induction xs with
  | nil => intro _ x hx; simp at hx
  | cons x xs ih =>
    intro h y hy
    simp only [updateItems] at h
    split at h
    · split at h <;> exact absurd h (by simp)
    · rename_i hne
      split at h
      · rename_i hrec
        rcases List.mem_cons.mp hy with rfl | hmem
        · exact hne
        · exact ih hrec y hmem
      · exact absurd h (by simp)

theorem updateItems_zero_unique {p : String} :
    ∀ {xs ys : List CartItem},
    xs.countP (fun x => decide (x.productID = p)) ≤ 1 →
    updateItems p 0 xs = some ys →
    ∀ y ∈ ys, y.productID ≠ p := by
  intro xs
  induction xs with
  | nil => intro ys _ h; exact absurd h (by simp [updateItems])
  | cons x xs ih =>
    intro ys hcount h
    simp only [updateItems] at h
    split at h
    · rename_i heq
      obtain rfl : xs = ys := by simpa using h
      have hzero : xs.countP (fun x => decide (x.productID = p)) = 0 := by
        rw [List.countP_cons_of_pos _ _ (by simpa using heq)] at hcount
        omega
      intro y hy
      have := List.countP_eq_zero.mp hzero y hy
      simpa using this
    · rename_i hne
      split at h
      · exact absurd h (by simp)
      · rename_i ys' hrec
        obtain rfl : x :: ys' = ys := by simpa using h
        have hcount' : xs.countP (fun x => decide (x.productID = p)) ≤ 1 := by
          rw [List.countP_cons_of_neg _ _ (by simpa using hne)] at hcount
          exact hcount
        intro y hy
        rcases List.mem_cons.mp hy with rfl | hmem
        · exact hne
        · exact ih hcount' hrec y hmem

/-- Counterexample to claim C9: on an expired cart that contains the item,
`UpdateItemQuantity(id, 0, max)` fails with `CartExpired` and leaves the item
in place, so `HasItem(id)` afterwards is `true`, not `false`. -/
theorem claim_C9_counterexample :
    (cartAfterUpdate
      { userID := "u1"
        items := [{ productID := "p1", productName := "n", sku := "s", price := 2,
                    quantity := 2, imageURL := "", category := "", subtotal := 4,
                    addedAt := 1 }]
        totalPrice := 4, totalItems := 2, createdAt := 0, updatedAt := 1,
        expiresAt := 5 }
      "p1" 0 5 9).HasItem "p1" = true := by
  rfl

/-- Claim C9 as amended: for every cart that is not expired at the time of the
call, whose items contain at most one row for the given productId (the
documented uniqueness invariant), and for every `maxQuantity ≥ 0`, executing
`UpdateItemQuantity(id, 0, max)` and then `HasItem(id)` yields `false`,
regardless of the item's prior quantity or prior presence. -/
theorem claim_C9_amended (c : Cart) (p : String) (mq now : Int)
    (hexp : c.IsExpired now = false) (hmq : 0 ≤ mq)
    (huniq : c.items.countP (fun x => decide (x.productID = p)) ≤ 1) :
    (cartAfterUpdate c p 0 mq now).HasItem p = false := by
  have h1 : ¬ (c.expiresAt < now) := by simpa [Cart.IsExpired] using hexp
  have hupd : c.UpdateItemQuantity p 0 mq now =
      match updateItems p 0 c.items with
      | some its => .ok { (Cart.UpdateTotals { c with items := its }) with updatedAt := now }
      | none => .error .itemNotFound := by
    unfold Cart.UpdateItemQuantity
    rw [if_neg h1, if_neg (by omega), if_neg (by omega)]
  cases hu : updateItems p 0 c.items with
  | none =>
    have hc : cartAfterUpdate c p 0 mq now = c := by
      unfold cartAfterUpdate
      rw [hupd, hu]
    rw [hc]
    have hnm := updateItems_none_not_mem hu
    simp only [Cart.HasItem, List.any_eq_false, decide_eq_true_eq]
    exact hnm
  | some its =>
    have hc : cartAfterUpdate c p 0 mq now =
        { (Cart.UpdateTotals { c with items := its }) with updatedAt := now } := by
      unfold cartAfterUpdate
      rw [hupd, hu]
    rw [hc]
    have hnm := updateItems_zero_unique huniq hu
    simp only [Cart.HasItem, List.any_eq_false, decide_eq_true_eq]
    exact hnm

/-- Witness for the amended claim C9 on a concrete live cart containing the item. -/
theorem claim_C9_amended_witness :
    (cartAfterUpdate
      { userID := "u1"
        items := [{ productID := "p1", productName := "n", sku := "s", price := 2,
                    quantity := 2, imageURL := "", category := "", subtotal := 4,
                    addedAt := 1 }]
        totalPrice := 4, totalItems := 2, createdAt := 0, updatedAt := 1,
        expiresAt := 50 }
      "p1" 0 5 9).HasItem "p1" = false :=
  claim_C9_amended _ "p1" 5 9 (by decide) (by decide) (by decide)

/-! ### Merge keeps the existing row's fields (claim C10) -/

theorem mergeItems_first_match {item : CartItem} {mq : Int} {x : CartItem} :
    ∀ {pre post : List CartItem},
    (∀ y ∈ pre, y.productID ≠ item.productID) →
    x.productID = item.productID →
    mergeItems item mq (pre ++ x :: post) =
      if x.quantity + item.quantity > mq then some (.error .maxQuantityExceeded)
      else some (.ok (pre ++
        { x with quantity := x.quantity + item.quantity,
                 subtotal := ((x.quantity + item.quantity : Int) : ℚ) * x.price } :: post)) := by
  intro pre
  induction pre with
  | nil =>
    intro post _ hx
    rw [List.nil_append]
    simp only [mergeItems]
    rw [if_pos hx, List.nil_append]
  | cons y pre ih =>
    intro post hpre hx
    have hy : y.productID ≠ item.productID := hpre y (by simp)
    rw [List.cons_append]
    simp only [mergeItems]
    rw [if_neg hy, ih (fun z hz => hpre z (List.mem_cons_of_mem _ hz)) hx]
    by_cases hgt : x.quantity + item.quantity > mq
    · rw [if_pos hgt, if_pos hgt]
    · rw [if_neg hgt, if_neg hgt, List.cons_append]

/-- Claim C10: when Model `AddItem` merges an incoming item into the existing
row with the same productId (the first such row), every field of that row
other than quantity and subtotal — price, productName, sku, imageUrl,
category, addedAt — is unchanged, and the new subtotal equals the existing
row's stored price times the merged quantity; the incoming item's price and
display fields are discarded. -/
theorem claim_C10_merge_frame (c : Cart) (item x : CartItem)
    (pre post : List CartItem) (mi mq now : Int)
    (hitems : c.items = pre ++ x :: post)
    (hx : x.productID = item.productID)
    (hpre : ∀ y ∈ pre, y.productID ≠ item.productID)
    (hexp : c.IsExpired now = false)
    (hq : x.quantity + item.quantity ≤ mq) :
    ∃ (c' : Cart) (x' : CartItem),
      c.AddItem item mi mq now = .ok c' ∧
      c'.items = pre ++ x' :: post ∧
      x'.productID = x.productID ∧
      x'.productName = x.productName ∧
      x'.sku = x.sku ∧
      x'.price = x.price ∧
      x'.imageURL = x.imageURL ∧
      x'.category = x.category ∧
      x'.addedAt = x.addedAt ∧
      x'.quantity = x.quantity + item.quantity ∧
      x'.subtotal = ((x.quantity + item.quantity : Int) : ℚ) * x.price := by
  have h1 : ¬ (c.expiresAt < now) := by simpa [Cart.IsExpired] using hexp
  refine ⟨{ (Cart.UpdateTotals { c with items := pre ++
      { x with quantity := x.quantity + item.quantity,
               subtotal := ((x.quantity + item.quantity : Int) : ℚ) * x.price } :: post })
        with updatedAt := now },
    { x with quantity := x.quantity + item.quantity,
             subtotal := ((x.quantity + item.quantity : Int) : ℚ) * x.price },
    ?_, rfl, rfl, rfl, rfl, rfl, rfl, rfl, rfl, rfl, rfl⟩
  unfold Cart.AddItem
  rw [if_neg h1, hitems, mergeItems_first_match hpre hx, if_neg (by omega)]

/-- Witness for claim C10 on a concrete one-row cart. -/
theorem claim_C10_merge_frame_witness :
    ∃ (c' : Cart) (x' : CartItem),
      Cart.AddItem
        { userID := "u1"
          items := [{ productID := "p1", productName := "old", sku := "s-old", price := 3,
                      quantity := 2, imageURL := "i-old", category := "c-old",
                      subtotal := 6, addedAt := 1 }]
          totalPrice := 6, totalItems := 2, createdAt := 0, updatedAt := 1,
          expiresAt := 50 }
        { productID := "p1", productName := "new", sku := "s-new", price := 9,
          quantity := 2, imageURL := "i-new", category := "c-new",
          subtotal := 0, addedAt := 7 } 10 5 7 = .ok c' ∧
      c'.items = [] ++ x' :: [] ∧
      x'.productID = "p1" ∧
      x'.productName = "old" ∧
      x'.sku = "s-old" ∧
      x'.price = 3 ∧
      x'.imageURL = "i-old" ∧
      x'.category = "c-old" ∧
      x'.addedAt = 1 ∧
      x'.quantity = 2 + 2 ∧
      x'.subtotal = ((2 + 2 : Int) : ℚ) * 3 :=
  claim_C10_merge_frame _ _
    { productID := "p1", productName := "old", sku := "s-old", price := 3,
      quantity := 2, imageURL := "i-old", category := "c-old", subtotal := 6, addedAt := 1 }
    [] [] 10 5 7 rfl rfl (by simp) (by decide) (by decide)

/-! ### Redis keyspace lemmas -/

theorem redisLookup_cons (e : RedisEntry) (st : RedisState) (k : String) :
    redisLookup (e :: st) k = if e.key = k then some e.val else redisLookup st k := by
  by_cases h : e.key = k
  · simp [redisLookup, List.find?_cons_of_pos, h]
  · simp [redisLookup, List.find?_cons_of_neg, h]

theorem redisLookup_redisDel_self (st : RedisState) (k : String) :
    redisLookup (redisDel st k) k = none := by
  induction st with
  | nil => rfl
  | cons e st ih =>
    rw [redisDel, List.filter_cons]
    by_cases h : e.key = k
    · rw [if_neg (by simp [h])]
      exact ih
    · rw [if_pos (by simp [h]), redisLookup_cons, if_neg h]
      exact ih

theorem redisLookup_redisDel_ne (st : RedisState) {k k' : String} (h : k' ≠ k) :
    redisLookup (redisDel st k) k' = redisLookup st k' := by
  induction st with
  | nil => rfl
  | cons e st ih =>
    rw [redisDel, List.filter_cons]
    by_cases he : e.key = k
    · rw [if_neg (by simp [he]), redisLookup_cons,
        if_neg (by rw [he]; exact fun hh => h hh.symm)]
      exact ih
    · rw [if_pos (by simp [he]), redisLookup_cons, redisLookup_cons]
      by_cases he' : e.key = k'
      · rw [if_pos he', if_pos he']
      · rw [if_neg he', if_neg he']
        exact ih

theorem redisLookup_redisSet_self (st : RedisState) (k : String) (v : RedisVal) (ttl : Int) :
    redisLookup (redisSet st k v ttl) k = some v := by
  rw [redisSet, redisLookup_cons, if_pos rfl]

theorem redisLookup_redisSet_ne (st : RedisState) {k k' : String} (v : RedisVal)
    (ttl : Int) (h : k' ≠ k) :
    redisLookup (redisSet st k v ttl) k' = redisLookup st k' := by
  rw [redisSet, redisLookup_cons, if_neg (fun hh => h hh.symm)]
  exact redisLookup_redisDel_ne st h

/-! ### The lock primitive (claim C4) -/

/-- Counterexample to claim C4: the claim asserts that `AcquireLock` returns
false when the lock is already held "for every backing implementation", but
the Dapr-backed `AcquireLock` is a permissive no-op: immediately after a
successful acquire for the same identity, a second acquire still returns
`true`, whereas the Redis-backed implementation returns `false` in the same
scenario. -/
theorem claim_C4_counterexample :
    (daprAcquireLock (daprAcquireLock ([] : DaprState) "u1" 30).2 "u1" 30).1 = true ∧
    (acquireLock (acquireLock ([] : RedisState) "u1" 30).2 "u1" 30).1 = false := by
  constructor <;> rfl

/-- Claim C4 as amended: the Redis-backed `AcquireLock` is an atomic
set-if-absent with expiry on the distinct key `"cart_lock:" + ownerId`,
returning false (and leaving the keyspace unchanged) when the lock key is
already held; the Dapr-backed variant instead always returns true and touches
nothing (ETag-based concurrency is claimed to replace locks).  The lock key
never collides with a cart key. -/
theorem claim_C4_amended (st : RedisState) (u : String) (d : Int) :
    (redisLookup st (getLockKey u) = none →
      acquireLock st u d = (true, ⟨getLockKey u, .strVal "locked", d⟩ :: st)) ∧
    (∀ v, redisLookup st (getLockKey u) = some v → acquireLock st u d = (false, st)) ∧
    (∀ dst : DaprState, daprAcquireLock dst u d = (true, dst)) ∧
    (∀ u' : String, getLockKey u ≠ getCartKey u') := by
  refine ⟨fun h => ?_, fun v h => ?_, fun dst => rfl,
    fun u' hh => getCartKey_ne_getLockKey u' u hh.symm⟩
  · rw [acquireLock, redisSetNX, h]
  · rw [acquireLock, redisSetNX, h]

/-- Witness for the amended claim C4 at concrete states. -/
theorem claim_C4_amended_witness :
    acquireLock ([] : RedisState) "u1" 30 =
      (true, [⟨getLockKey "u1", .strVal "locked", 30⟩]) ∧
    acquireLock [⟨getLockKey "u1", .strVal "locked", 30⟩] "u1" 30 =
      (false, [⟨getLockKey "u1", .strVal "locked", 30⟩]) ∧
    daprAcquireLock ([] : DaprState) "u1" 30 = (true, []) ∧
    getLockKey "u1" ≠ getCartKey "u2" :=
  ⟨(claim_C4_amended [] "u1" 30).1 rfl,
   (claim_C4_amended [⟨getLockKey "u1", .strVal "locked", 30⟩] "u1" 30).2.1
     (.strVal "locked") (by decide),
   (claim_C4_amended [] "u1" 30).2.2.1 [],
   (claim_C4_amended [] "u1" 30).2.2.2 "u2"⟩

/-! ### Store-native TTL on save (claim C7) -/




/-- Counterexample to claim C7: a cart expiring 30 seconds from now is saved
with a store-native TTL of 30 seconds, below the claimed 1-minute floor
`max(remaining, 1 min) = 1 min`; the code applies the floor only when the
remaining time is ≤ 0. -/
theorem claim_C7_counterexample :
    redisGetTTL
      (repoSaveCart [] 0
        { userID := "u1", items := [], totalPrice := 0, totalItems := 0,
          createdAt := 0, updatedAt := 0, expiresAt := 30000000000 })
      (getCartKey "u1") = some 30000000000 ∧
    specSaveTTL 30000000000 0 = 60000000000 ∧
    (30000000000 : Int) ≠ 60000000000 := by
  refine ⟨rfl, by decide, by decide⟩

/-- Claim C7 as amended: `SaveCart` writes the serialized cart under
`"cart:" + ownerId` with a store-native TTL equal to the time remaining until
`cart.expiresAt` when that is positive, and 1 minute otherwise — the 1-minute
floor applies only to non-positive remaining time, so a cart expiring in less
than a minute is written with its actual (sub-minute) remaining time.  The
Dapr variant does the same in truncated whole seconds. -/
theorem claim_C7_amended (st : RedisState) (dst : DaprState) (now : Int) (cart : Cart) :
    redisGetTTL (repoSaveCart st now cart) (getCartKey cart.userID) =
      some (if cart.expiresAt - now ≤ 0 then minuteNs else cart.expiresAt - now) ∧
    daprGetTTL (daprSaveCart dst now cart) (getCartKey cart.userID) =
      some (if Int.tdiv (cart.expiresAt - now) 1000000000 ≤ 0 then 60
            else Int.tdiv (cart.expiresAt - now) 1000000000) := by
  constructor
  · have h : repoSaveCart st now cart =
        redisSet st (getCartKey cart.userID) (.cartVal cart)
          (if cart.expiresAt - now ≤ 0 then minuteNs else cart.expiresAt - now) := rfl
    rw [h, redisSet, redisGetTTL, List.find?_cons_of_pos _ (by simp)]
  · have h : daprSaveCart dst now cart =
        ⟨getCartKey cart.userID, cart,
          if Int.tdiv (cart.expiresAt - now) 1000000000 ≤ 0 then 60
          else Int.tdiv (cart.expiresAt - now) 1000000000⟩ ::
          dst.filter fun e => decide (e.key ≠ getCartKey cart.userID) := rfl
    rw [h, daprGetTTL, List.find?_cons_of_pos _ (by simp)]

/-! ### Expired cart read (claim C5) -/

/-- Counterexample to claim C5: fetching a stored-but-expired cart through the
orchestrator's `GetCart` does not produce the fresh-empty-cart result that an
absent record produces — it surfaces a `CartExpired` error (the repository
deletes the record and returns `ErrCartExpired`, and the service only converts
`ErrCartNotFound` into a fresh cart). -/
theorem claim_C5_counterexample :
    (serviceGetCart
      [⟨getCartKey "u1",
        .cartVal { userID := "u1", items := [], totalPrice := 0, totalItems := 0,
                   createdAt := 0, updatedAt := 0, expiresAt := 5 }, 100⟩]
      10 "u1" 50).1 = .error .cartExpired ∧
    (serviceGetCart ([] : RedisState) 10 "u1" 50).1 = .ok (NewCart "u1" 50 10) ∧
    (Except.error .cartExpired : Except CartError Cart) ≠ .ok (NewCart "u1" 50 10) := by
  exact ⟨rfl, rfl, fun h => Except.noConfusion h⟩

/-- Claim C5 as amended: for every identity whose stored record exists but is
logically expired, the orchestrator's `GetCart` deletes the stale record as a
side effect (the caller never observes the expired contents), but the caller
receives a `CartExpired` error — not the fresh-empty-cart result of the
no-record case. -/
theorem claim_C5_amended (st : RedisState) (now : Int) (u : String) (dttl : Int)
    (c : Cart) (hstored : redisLookup st (getCartKey u) = some (.cartVal c))
    (hexp : c.IsExpired now = true) :
    (serviceGetCart st now u dttl).1 = .error .cartExpired ∧
    redisLookup (serviceGetCart st now u dttl).2 (getCartKey u) = none := by
  have hrepo : repoGetCart st now u = (.error .cartExpired, redisDel st (getCartKey u)) := by
    unfold repoGetCart
    rw [hstored]
    simp [hexp]
  unfold serviceGetCart
  rw [hrepo]
  exact ⟨rfl, redisLookup_redisDel_self st (getCartKey u)⟩

/-- Witness for the amended claim C5 at a concrete expired stored cart. -/
theorem claim_C5_amended_witness :
    (serviceGetCart
      [⟨getCartKey "u2",
        .cartVal { userID := "u2", items := [], totalPrice := 0, totalItems := 0,
                   createdAt := 0, updatedAt := 0, expiresAt := 5 }, 100⟩]
      10 "u2" 50).1 = .error .cartExpired ∧
    redisLookup
      (serviceGetCart
        [⟨getCartKey "u2",
          .cartVal { userID := "u2", items := [], totalPrice := 0, totalItems := 0,
                     createdAt := 0, updatedAt := 0, expiresAt := 5 }, 100⟩]
        10 "u2" 50).2 (getCartKey "u2") = none :=
  claim_C5_amended _ 10 "u2" 50
    { userID := "u2", items := [], totalPrice := 0, totalItems := 0,
      createdAt := 0, updatedAt := 0, expiresAt := 5 }
    (by decide) (by decide)

/-! ### Collaborator failure policy (claim C8) -/

/-- Claim C8: during the orchestrator's `AddItem` and `UpdateItem`, an error
from the inventory collaborator's availability check is swallowed and the
operation proceeds exactly as if the quantity were available (degrade-open);
an explicit "unavailable" report fails the operation with
`InsufficientStock`; and a failure of the product collaborator's lookup is
never swallowed — `AddItem` (the only one of the two that consults the
catalog) always fails the operation. -/
theorem claim_C8_degrade_open
    (st : RedisState) (now : Int) (userID productID : String)
    (req : AddItemRequest) (ureq : UpdateItemRequest)
    (pinfo : ProductInfo) (e : Unit)
    (maxItems maxQuantity dttl lease : Int)
    (cart : Cart) (cur : CartItem)
    (hlock : redisLookup st (getLockKey userID) = none)
    (hactive : pinfo.isActive = true)
    (hcart : redisLookup st (getCartKey userID) = some (.cartVal cart))
    (hnexp : cart.IsExpired now = false)
    (hitem : cart.GetItem productID = .ok cur)
    (h0 : 0 < ureq.quantity)
    (hq : cur.quantity < ureq.quantity) :
    (∀ productRes,
      serviceAddItem st now userID req productRes (.error e) maxItems maxQuantity dttl lease =
        serviceAddItem st now userID req productRes (.ok true) maxItems maxQuantity dttl lease) ∧
    serviceUpdateItem st now userID productID ureq (.error e) maxQuantity lease =
      serviceUpdateItem st now userID productID ureq (.ok true) maxQuantity lease ∧
    (serviceAddItem st now userID req (.ok pinfo) (.ok false)
        maxItems maxQuantity dttl lease).1 = .error .insufficientStock ∧
    (serviceUpdateItem st now userID productID ureq (.ok false)
        maxQuantity lease).1 = .error .insufficientStock ∧
    (∀ invRes, (serviceAddItem st now userID req (.error e) invRes
        maxItems maxQuantity dttl lease).1 = .error .productLookupFailed) := by
  have hacq : acquireLock st userID lease =
      (true, ⟨getLockKey userID, .strVal "locked", lease⟩ :: st) := by
    rw [acquireLock, redisSetNX, hlock]
  have hcart1 : redisLookup (⟨getLockKey userID, .strVal "locked", lease⟩ :: st)
      (getCartKey userID) = some (.cartVal cart) := by
    rw [redisLookup_cons, if_neg fun hk => getCartKey_ne_getLockKey userID userID hk.symm]
    exact hcart
  have hrepo : repoGetCart (⟨getLockKey userID, .strVal "locked", lease⟩ :: st) now userID =
      (.ok cart, ⟨getLockKey userID, .strVal "locked", lease⟩ :: st) := by
    unfold repoGetCart
    rw [hcart1]
    simp [hnexp]
  refine ⟨fun productRes => rfl, ?_, ?_, ?_, fun invRes => ?_⟩
  · rfl
  · unfold serviceAddItem
    rw [hacq]
    simp [hactive]
  · unfold serviceUpdateItem
    rw [hacq]
    simp only []
    rw [hrepo]
    simp [hitem, h0, hq]
  · unfold serviceAddItem
    rw [hacq]
    simp

/-- Witness for claim C8 at a concrete state and collaborator outcomes. -/
theorem claim_C8_degrade_open_witness :
    (∀ productRes,
      serviceAddItem [⟨getCartKey "u1",
          .cartVal { userID := "u1",
                     items := [{ productID := "p1", productName := "n", sku := "s",
                                 price := 2, quantity := 1, imageURL := "",
                                 category := "", subtotal := 2, addedAt := 1 }],
                     totalPrice := 2, totalItems := 1, createdAt := 0, updatedAt := 1,
                     expiresAt := 50 }, 100⟩]
        10 "u1" ⟨"p1", 1⟩ productRes (.error ()) 10 5 40 30 =
      serviceAddItem [⟨getCartKey "u1",
          .cartVal { userID := "u1",
                     items := [{ productID := "p1", productName := "n", sku := "s",
                                 price := 2, quantity := 1, imageURL := "",
                                 category := "", subtotal := 2, addedAt := 1 }],
                     totalPrice := 2, totalItems := 1, createdAt := 0, updatedAt := 1,
                     expiresAt := 50 }, 100⟩]
        10 "u1" ⟨"p1", 1⟩ productRes (.ok true) 10 5 40 30) ∧
    serviceUpdateItem [⟨getCartKey "u1",
        .cartVal { userID := "u1",
                   items := [{ productID := "p1", productName := "n", sku := "s",
                               price := 2, quantity := 1, imageURL := "",
                               category := "", subtotal := 2, addedAt := 1 }],
                   totalPrice := 2, totalItems := 1, createdAt := 0, updatedAt := 1,
                   expiresAt := 50 }, 100⟩]
      10 "u1" "p1" ⟨2⟩ (.error ()) 5 30 =
      serviceUpdateItem [⟨getCartKey "u1",
          .cartVal { userID := "u1",
                     items := [{ productID := "p1", productName := "n", sku := "s",
                                 price := 2, quantity := 1, imageURL := "",
                                 category := "", subtotal := 2, addedAt := 1 }],
                     totalPrice := 2, totalItems := 1, createdAt := 0, updatedAt := 1,
                     expiresAt := 50 }, 100⟩]
        10 "u1" "p1" ⟨2⟩ (.ok true) 5 30 ∧
    (serviceAddItem [⟨getCartKey "u1",
        .cartVal { userID := "u1",
                   items := [{ productID := "p1", productName := "n", sku := "s",
                               price := 2, quantity := 1, imageURL := "",
                               category := "", subtotal := 2, addedAt := 1 }],
                   totalPrice := 2, totalItems := 1, createdAt := 0, updatedAt := 1,
                   expiresAt := 50 }, 100⟩]
      10 "u1" ⟨"p1", 1⟩
      (.ok { id := "p1", name := "n", sku := "s", price := 2, imageURL := "",
             category := "", isActive := true, stockQty := 9 })
      (.ok false) 10 5 40 30).1 = .error .insufficientStock ∧
    (serviceUpdateItem [⟨getCartKey "u1",
        .cartVal { userID := "u1",
                   items := [{ productID := "p1", productName := "n", sku := "s",
                               price := 2, quantity := 1, imageURL := "",
                               category := "", subtotal := 2, addedAt := 1 }],
                   totalPrice := 2, totalItems := 1, createdAt := 0, updatedAt := 1,
                   expiresAt := 50 }, 100⟩]
      10 "u1" "p1" ⟨2⟩ (.ok false) 5 30).1 = .error .insufficientStock ∧
    (∀ invRes, (serviceAddItem [⟨getCartKey "u1",
        .cartVal { userID := "u1",
                   items := [{ productID := "p1", productName := "n", sku := "s",
                               price := 2, quantity := 1, imageURL := "",
                               category := "", subtotal := 2, addedAt := 1 }],
                   totalPrice := 2, totalItems := 1, createdAt := 0, updatedAt := 1,
                   expiresAt := 50 }, 100⟩]
      10 "u1" ⟨"p1", 1⟩ (.error ()) invRes 10 5 40 30).1 = .error .productLookupFailed) :=
  claim_C8_degrade_open _ 10 "u1" "p1" ⟨"p1", 1⟩ ⟨2⟩
    { id := "p1", name := "n", sku := "s", price := 2, imageURL := "",
      category := "", isActive := true, stockQty := 9 }
    () 10 5 40 30
    { userID := "u1",
      items := [{ productID := "p1", productName := "n", sku := "s", price := 2,
                  quantity := 1, imageURL := "", category := "", subtotal := 2,
                  addedAt := 1 }],
      totalPrice := 2, totalItems := 1, createdAt := 0, updatedAt := 1,
      expiresAt := 50 }
    { productID := "p1", productName := "n", sku := "s", price := 2, quantity := 1,
      imageURL := "", category := "", subtotal := 2, addedAt := 1 }
    (by decide) rfl (by decide) (by decide) rfl (by decide) (by decide)

/-! ### Cart transfer (claim C6) -/

theorem getLockKey_inj {a b : String} (h : getLockKey a = getLockKey b) : a = b := by
  have h2 : ("cart_lock:" ++ a).data = ("cart_lock:" ++ b).data := congrArg String.data h
  rw [String.data_append, String.data_append] at h2
  have h3 : a.data = b.data := by
    simpa using h2
  cases a; cases b; exact congrArg String.mk (by simpa using h3)

theorem addItem_ok_userID {c : Cart} {item : CartItem} {mi mq now : Int} {c' : Cart}
    (h : c.AddItem item mi mq now = .ok c') : c'.userID = c.userID := by
  obtain ⟨its, rfl⟩ := addItem_ok_shape h
  rfl

theorem transferStep_userID (now mi mq : Int) (acc : Cart) (it : CartItem) :
    (transferStep now mi mq acc it).userID = acc.userID := by
  unfold transferStep
  split
  · rename_i c hc
    exact addItem_ok_userID hc
  · rfl

theorem foldl_transferStep_userID (now mi mq : Int) :
    ∀ (l : List CartItem) (acc : Cart),
    (l.foldl (transferStep now mi mq) acc).userID = acc.userID := by
  intro l
  induction l with
  | nil => intro acc; rfl
  | cons it l ih =>
    intro acc
    rw [List.foldl_cons, ih, transferStep_userID]

theorem redisLookup_repoSaveCart_self (st : RedisState) (now : Int) (c : Cart) :
    redisLookup (repoSaveCart st now c) (getCartKey c.userID) = some (.cartVal c) := by
  have h : repoSaveCart st now c = redisSet st (getCartKey c.userID) (.cartVal c)
      (if c.expiresAt - now ≤ 0 then minuteNs else c.expiresAt - now) := rfl
  rw [h]
  exact redisLookup_redisSet_self st (getCartKey c.userID) (.cartVal c) _

theorem redisLookup_repoSaveCart_ne (st : RedisState) (now : Int) (c : Cart)
    {k : String} (hk : k ≠ getCartKey c.userID) :
    redisLookup (repoSaveCart st now c) k = redisLookup st k := by
  have h : repoSaveCart st now c = redisSet st (getCartKey c.userID) (.cartVal c)
      (if c.expiresAt - now ≤ 0 then minuteNs else c.expiresAt - now) := rfl
  rw [h]
  exact redisLookup_redisSet_ne st (.cartVal c) _ hk

theorem transferStep_atomic (now mi mq : Int) (acc : Cart) (it : CartItem) :
    transferStep now mi mq acc it = acc ∨
      acc.AddItem it mi mq now = .ok (transferStep now mi mq acc it) := by
  unfold transferStep
  split
  · rename_i c hc
    exact Or.inr hc
  · exact Or.inl rfl

/-- Claim C6: when the source cart exists and is not expired (and the two
identities are distinct with both locks free), `TransferCart` merges each
source item into the target cart via `AddItem` under the configured
`maxItems`/`maxQuantity`, swallowing any per-item failure (each item is either
fully merged by a successful `AddItem` or dropped whole, and the transfer
still returns success); the merged target cart is persisted under the target's
cart key, the source cart's record is deleted, and a subsequent `GetCart` on
the source identity returns a fresh empty cart. -/
theorem claim_C6_transfer (st : RedisState) (now : Int) (fromUserID toUserID : String)
    (maxItems maxQuantity dttl lease : Int) (src : Cart)
    (hne : fromUserID ≠ toUserID)
    (hlf : redisLookup st (getLockKey fromUserID) = none)
    (hlt : redisLookup st (getLockKey toUserID) = none)
    (hsrc : redisLookup st (getCartKey fromUserID) = some (.cartVal src))
    (hexp : src.IsExpired now = false)
    (htgt : redisLookup st (getCartKey toUserID) = none ∨
      ∃ t, redisLookup st (getCartKey toUserID) = some (.cartVal t) ∧
        t.IsExpired now = false ∧ t.userID = toUserID) :
    ∃ (tgt merged : Cart) (st' : RedisState),
      transferCart st now fromUserID toUserID maxItems maxQuantity dttl lease =
        (.ok merged, st') ∧
      merged = src.items.foldl (transferStep now maxItems maxQuantity) tgt ∧
      (redisLookup st (getCartKey toUserID) = some (.cartVal tgt) ∨
        tgt = NewCart toUserID dttl now) ∧
      redisLookup st' (getCartKey toUserID) = some (.cartVal merged) ∧
      redisLookup st' (getCartKey fromUserID) = none ∧
      redisLookup st' (getLockKey fromUserID) = none ∧
      redisLookup st' (getLockKey toUserID) = none ∧
      (∀ now2 dttl2 : Int, (serviceGetCart st' now2 fromUserID dttl2).1 =
        .ok (NewCart fromUserID dttl2 now2) ∧ (NewCart fromUserID dttl2 now2).items = []) ∧
      (∀ (acc : Cart) (it : CartItem),
        transferStep now maxItems maxQuantity acc it = acc ∨
        acc.AddItem it maxItems maxQuantity now =
          .ok (transferStep now maxItems maxQuantity acc it)) := by
  have hcne : getCartKey fromUserID ≠ getCartKey toUserID :=
    fun h => hne (getCartKey_inj h)
  have hlne : getLockKey fromUserID ≠ getLockKey toUserID :=
    fun h => hne (getLockKey_inj h)
  have hacq1 : acquireLock st fromUserID lease =
      (true, ⟨getLockKey fromUserID, .strVal "locked", lease⟩ :: st) := by
    rw [acquireLock, redisSetNX, hlf]
  set ef : RedisEntry := ⟨getLockKey fromUserID, .strVal "locked", lease⟩ with hef
  set et : RedisEntry := ⟨getLockKey toUserID, .strVal "locked", lease⟩ with het
  have hacq2 : acquireLock (ef :: st) toUserID lease = (true, et :: ef :: st) := by
    rw [acquireLock, redisSetNX, redisLookup_cons, if_neg hlne, hlt]
  set st2 : RedisState := et :: ef :: st with hst2
  have hlookSrc : redisLookup st2 (getCartKey fromUserID) = some (.cartVal src) := by
    rw [hst2, redisLookup_cons,
      if_neg fun h => getCartKey_ne_getLockKey fromUserID toUserID h.symm,
      redisLookup_cons,
      if_neg fun h => getCartKey_ne_getLockKey fromUserID fromUserID h.symm]
    exact hsrc
  have hrepoSrc : repoGetCart st2 now fromUserID = (.ok src, st2) := by
    unfold repoGetCart
    rw [hlookSrc]
    simp [hexp]
  have hlookTgt : redisLookup st2 (getCartKey toUserID) =
      redisLookup st (getCartKey toUserID) := by
    rw [hst2, redisLookup_cons,
      if_neg fun h => getCartKey_ne_getLockKey toUserID toUserID h.symm,
      redisLookup_cons,
      if_neg fun h => getCartKey_ne_getLockKey toUserID fromUserID h.symm]
  -- get-or-create the target
  obtain ⟨tgt, st4, hsvc, htgtCase, htgtU⟩ :
      ∃ (tgt : Cart) (st4 : RedisState),
        serviceGetCart st2 now toUserID dttl = (.ok tgt, st4) ∧
        (redisLookup st (getCartKey toUserID) = some (.cartVal tgt) ∨
          tgt = NewCart toUserID dttl now) ∧
        tgt.userID = toUserID := by
    rcases htgt with hnone | ⟨t, hsome, htexp, htu⟩
    · refine ⟨NewCart toUserID dttl now,
        repoSaveCart st2 now (NewCart toUserID dttl now), ?_, Or.inr rfl, rfl⟩
      have hrepoTgt : repoGetCart st2 now toUserID = (.error .cartNotFound, st2) := by
        unfold repoGetCart
        rw [hlookTgt, hnone]
      unfold serviceGetCart
      rw [hrepoTgt]
    · refine ⟨t, st2, ?_, Or.inl hsome, htu⟩
      have hrepoTgt : repoGetCart st2 now toUserID = (.ok t, st2) := by
        unfold repoGetCart
        rw [hlookTgt, hsome]
        simp [htexp]
      unfold serviceGetCart
      rw [hrepoTgt]
  set merged : Cart := src.items.foldl (transferStep now maxItems maxQuantity) tgt
    with hmerged
  have hmu : merged.userID = toUserID := by
    rw [hmerged, foldl_transferStep_userID, htgtU]
  set st5 : RedisState := repoSaveCart st4 now merged with hst5
  set st6 : RedisState := redisDel st5 (getCartKey fromUserID) with hst6
  set stFin : RedisState :=
    redisDel (redisDel st6 (getLockKey toUserID)) (getLockKey fromUserID) with hstFin
  have hrun : transferCart st now fromUserID toUserID maxItems maxQuantity dttl lease =
      (.ok merged, stFin) := by
    unfold transferCart
    rw [hacq1]
    simp only [Bool.true_eq_false, if_false]
    rw [hacq2]
    simp only [Bool.true_eq_false, if_false]
    rw [hrepoSrc]
    simp only [hsvc]
    rfl
  have hlookTo5 : redisLookup st5 (getCartKey toUserID) = some (.cartVal merged) := by
    rw [hst5, ← hmu]
    exact redisLookup_repoSaveCart_self st4 now merged
  have hlookToFin : redisLookup stFin (getCartKey toUserID) = some (.cartVal merged) := by
    rw [hstFin,
      redisLookup_redisDel_ne _ (getCartKey_ne_getLockKey toUserID fromUserID),
      redisLookup_redisDel_ne _ (getCartKey_ne_getLockKey toUserID toUserID),
      hst6, redisLookup_redisDel_ne _ fun h => hcne h.symm]
    exact hlookTo5
  have hlookFromFin : redisLookup stFin (getCartKey fromUserID) = none := by
    rw [hstFin,
      redisLookup_redisDel_ne _ (getCartKey_ne_getLockKey fromUserID fromUserID),
      redisLookup_redisDel_ne _ (getCartKey_ne_getLockKey fromUserID toUserID),
      hst6]
    exact redisLookup_redisDel_self st5 (getCartKey fromUserID)
  have hlockFromFin : redisLookup stFin (getLockKey fromUserID) = none := by
    rw [hstFin]
    exact redisLookup_redisDel_self _ (getLockKey fromUserID)
  have hlockToFin : redisLookup stFin (getLockKey toUserID) = none := by
    rw [hstFin, redisLookup_redisDel_ne _ fun h => hlne h.symm]
    exact redisLookup_redisDel_self _ (getLockKey toUserID)
  refine ⟨tgt, merged, stFin, hrun, hmerged, htgtCase, hlookToFin, hlookFromFin,
    hlockFromFin, hlockToFin, fun now2 dttl2 => ⟨?_, rfl⟩,
    transferStep_atomic now maxItems maxQuantity⟩
  have hrepoFin : repoGetCart stFin now2 fromUserID = (.error .cartNotFound, stFin) := by
    unfold repoGetCart
    rw [hlookFromFin]
  unfold serviceGetCart
  rw [hrepoFin]

/-- Witness for claim C6: a concrete one-item source cart transferred to an
absent target. -/
theorem claim_C6_transfer_witness :
    ∃ (tgt merged : Cart) (st' : RedisState),
      transferCart
        [⟨getCartKey "u1",
          .cartVal { userID := "u1",
                     items := [{ productID := "p1", productName := "n", sku := "s",
                                 price := 2, quantity := 2, imageURL := "",
                                 category := "", subtotal := 4, addedAt := 1 }],
                     totalPrice := 4, totalItems := 2, createdAt := 0, updatedAt := 1,
                     expiresAt := 50 }, 100⟩]
        10 "u1" "u2" 10 5 40 30 = (.ok merged, st') ∧
      merged = [CartItem.mk "p1" "n" "s" 2 2 "" "" 4 1].foldl
        (transferStep 10 10 5) tgt ∧
      (redisLookup
        [⟨getCartKey "u1",
          .cartVal { userID := "u1",
                     items := [{ productID := "p1", productName := "n", sku := "s",
                                 price := 2, quantity := 2, imageURL := "",
                                 category := "", subtotal := 4, addedAt := 1 }],
                     totalPrice := 4, totalItems := 2, createdAt := 0, updatedAt := 1,
                     expiresAt := 50 }, 100⟩]
        (getCartKey "u2") = some (.cartVal tgt) ∨ tgt = NewCart "u2" 40 10) ∧
      redisLookup st' (getCartKey "u2") = some (.cartVal merged) ∧
      redisLookup st' (getCartKey "u1") = none ∧
      redisLookup st' (getLockKey "u1") = none ∧
      redisLookup st' (getLockKey "u2") = none ∧
      (∀ now2 dttl2 : Int, (serviceGetCart st' now2 "u1" dttl2).1 =
        .ok (NewCart "u1" dttl2 now2) ∧ (NewCart "u1" dttl2 now2).items = []) ∧
      (∀ (acc : Cart) (it : CartItem),
        transferStep 10 10 5 acc it = acc ∨
        acc.AddItem it 10 5 10 = .ok (transferStep 10 10 5 acc it)) :=
  claim_C6_transfer _ 10 "u1" "u2" 10 5 40 30
    { userID := "u1",
      items := [{ productID := "p1", productName := "n", sku := "s", price := 2,
                  quantity := 2, imageURL := "", category := "", subtotal := 4,
                  addedAt := 1 }],
      totalPrice := 4, totalItems := 2, createdAt := 0, updatedAt := 1,
      expiresAt := 50 }
    (by decide) (by decide) (by decide) (by decide) (by decide) (Or.inl (by decide))

end CartService
